import Mathlib

/-!
Verification of the Foodie recommendation-resolution engine.

The definitions below are a shallow embedding of the two client resolvers
`getAiFilteredHotspots` and `getAiRankedRestaurants` (foodie-app/check-supabase.js),
the backend ranking endpoints (foodie-backend/server.js), the result
reconciliation in `handleSearch`, and the request shaping of the service layer
(foodie-app/src/services/api.js).

Conventions of the embedding:
* JS numbers used as scores are modelled as `ℚ` for restaurants (all
  restaurant-path score arithmetic is exact in halves and tenths); the hotspot
  baseline `Math.log(review_count || 1) / 10` forces `ℝ` for hotspot scores.
* JS string primitives (`toLowerCase`, `trim`, `includes`, `split(/\s+/)`,
  `substring`, `join`) are re-implemented structurally on the character list of
  a `String`, so that every concrete computation reduces in the kernel.
* `Array.prototype.sort` with a consistent comparator `cmp` is (per ES2019)
  the stable sort by the total preorder `cmp a b ≤ 0`; it is embedded as
  `List.insertionSort r` with `r a b ↔ cmp a b ≤ 0`, which computes exactly
  that stable sort (each element is inserted into the sorted suffix before
  the first element it ties with or strictly precedes).
* JS `Map` is modelled as an association list with first-match lookup and
  overwrite-on-set; `Map.get` on a map built from `[key, value]` pairs returns
  the value of the last pair with that key.
* Candidate entities are modelled with the fields the engine inspects; fields
  carried through opaquely (address, coordinates, rating, …) are omitted.
-/

/-! ### JS string primitives, structurally on `List Char` -/

/-- Bool-valued prefix test on character lists. -/
def listPrefixOf : List Char → List Char → Bool
  | [], _ => true
  | _ :: _, [] => false
  | a :: as, b :: bs => a == b && listPrefixOf as bs

/-- Bool-valued contiguous-substring test on character lists. -/
def listInfixOf (pat : List Char) : List Char → Bool
  | [] => listPrefixOf pat []
  | c :: rest => listPrefixOf pat (c :: rest) || listInfixOf pat rest

/-- JS `s.includes(sub)`: `sub` occurs as a contiguous substring of `s`. -/
def jsIncludes (s sub : String) : Bool := listInfixOf sub.data s.data

/-- JS `s.toLowerCase()` (ASCII case folding). -/
def jsToLower (s : String) : String := ⟨s.data.map Char.toLower⟩

/-- JS `s.trim()`: strip leading and trailing whitespace. -/
def jsTrim (s : String) : String :=
  ⟨((s.data.dropWhile Char.isWhitespace).reverse.dropWhile Char.isWhitespace).reverse⟩

/-- Helper for `jsSplitWs`: accumulate the current fragment (reversed). -/
def splitWsAux : List Char → List Char → List String
  | [], cur => [⟨cur.reverse⟩]
  | c :: rest, cur =>
    if c.isWhitespace then ⟨cur.reverse⟩ :: splitWsAux rest []
    else splitWsAux rest (c :: cur)

/-- JS `s.split(/\s+/)`, except that a run of k whitespace characters yields
k−1 empty fragments instead of one; every use below either filters fragments
by length or takes the head, and on both observations the two behaviours
agree. -/
def jsSplitWs (s : String) : List String := splitWsAux s.data []

/-- JS `s.substring(0, n)`. -/
def jsSubstrTo (s : String) (n : Nat) : String := ⟨s.data.take n⟩

/-- JS `array.join(sep)` for string arrays. -/
def jsJoin (sep : String) : List String → String
  | [] => ""
  | [x] => x
  | x :: y :: xs => x ++ sep ++ jsJoin sep (y :: xs)

/-- Tokenization shared by both fallback scorers: split the (lower-cased)
string on whitespace and keep only tokens of length > 2 (`w.length > 2`). -/
def tokensOf (s : String) : List String :=
  (jsSplitWs s).filter (fun w => w.length > 2)

/-! ### Candidate entities -/

/-- A restaurant candidate (fields inspected by the engine). -/
structure Restaurant where
  placeId : String
  name : String
  tags : List String
  cuisine : String
deriving DecidableEq

/-- A hotspot candidate (fields inspected by the engine). A missing
`review_count` is modelled as `0`, which behaves like JS `undefined` in every
comparison and in `review_count || 1`. -/
structure Hotspot where
  name : String
  tags : List String
  review_count : Nat
deriving DecidableEq

/-! ### Restaurant fallback scorer (`getAiRankedRestaurants`, catch branch) -/

/-- Accumulator threaded through the restaurant fallback scoring block
(`score`, `matchedTags`, `reasoningParts`, `hasDirectMatch`). -/
structure RestAcc where
  score : ℚ
  matchedTags : List String
  reasoningParts : List String
  hasDirectMatch : Bool
deriving DecidableEq

/-- JS `if (!matchedTags.includes(tag)) matchedTags.push(tag)`. -/
def pushIfAbsent (l : List String) (t : String) : List String :=
  if l.contains t then l else l ++ [t]

/-- The two-directional substring test used for every (tag, token) pair and for
the phrase bonus: `tagLower.includes(w) || w.includes(tagLower)`. -/
def tagTokenHit (tagLower w : String) : Bool :=
  jsIncludes tagLower w || jsIncludes w tagLower

/-- One iteration of the craving-word loop over a restaurant tag:
`score += 3`, set the direct-match flag, record the tag. -/
def cravTagStep (tagLower tag : String) (acc : RestAcc) (w : String) : RestAcc :=
  if tagTokenHit tagLower w then
    { acc with
      score := acc.score + 3
      hasDirectMatch := true
      matchedTags := pushIfAbsent acc.matchedTags tag }
  else acc

/-- One iteration of the mood-word loop over a restaurant tag: `score += 1.5`. -/
def moodTagStep (tagLower tag : String) (acc : RestAcc) (w : String) : RestAcc :=
  if tagTokenHit tagLower w then
    { acc with
      score := acc.score + 3/2
      matchedTags := pushIfAbsent acc.matchedTags tag }
  else acc

/-- Processing of one restaurant tag: craving-word loop, then the
full-craving-phrase bonus (`score += 4`), then the mood-word loop. -/
def restTagStep (cravingsWords moodWords : List String) (cravingsLower : String)
    (acc : RestAcc) (tag : String) : RestAcc :=
  let tagLower := jsToLower tag
  let acc1 := cravingsWords.foldl (cravTagStep tagLower tag) acc
  let acc2 :=
    if tagTokenHit tagLower cravingsLower then
      { acc1 with
        score := acc1.score + 4
        hasDirectMatch := true
        matchedTags := pushIfAbsent acc1.matchedTags tag }
    else acc1
  moodWords.foldl (moodTagStep tagLower tag) acc2

/-- The `if (r.tags && r.tags.length > 0) { … }` block of the restaurant
scorer, including the `"serves …"` reasoning part. -/
def restTagPhase (cravingsWords moodWords : List String) (cravingsLower : String)
    (tags : List String) : RestAcc :=
  if tags.length > 0 then
    let acc := tags.foldl (restTagStep cravingsWords moodWords cravingsLower) ⟨0, [], [], false⟩
    if acc.matchedTags.length > 0 then
      { acc with
        reasoningParts := acc.reasoningParts ++ ["serves " ++ jsJoin ", " acc.matchedTags] }
    else acc
  else ⟨0, [], [], false⟩

/-- One iteration of the craving-word loop over the restaurant name:
`score += 2` and possibly a `"specializes in …"` reasoning part. -/
def cravNameStep (nameLower : String) (acc : RestAcc) (w : String) : RestAcc :=
  if jsIncludes nameLower w then
    { acc with
      score := acc.score + 2
      hasDirectMatch := true
      reasoningParts :=
        if acc.reasoningParts.any (fun p => jsIncludes p "serves") then acc.reasoningParts
        else acc.reasoningParts ++ ["specializes in " ++ w] }
  else acc

/-- The name-matching block of the restaurant scorer: craving-word loop over
the name, then the full-craving-phrase-in-name bonus (`score += 3`). -/
def restNamePhase (cravingsWords : List String) (cravingsLower nameLower : String)
    (acc : RestAcc) : RestAcc :=
  let acc1 := cravingsWords.foldl (cravNameStep nameLower) acc
  if jsIncludes nameLower cravingsLower then
    { acc1 with
      score := acc1.score + 3
      hasDirectMatch := true }
  else acc1

/-- The full matching pass of the restaurant fallback scorer (tag block then
name block) — the accumulated state right before the cuisine-keyword
fallback. Its `score` field is the "accumulated score" of the matching rules. -/
def restMatchAcc (mood cravings : String) (r : Restaurant) : RestAcc :=
  let moodLower := jsTrim (jsToLower mood)
  let cravingsLower := jsTrim (jsToLower cravings)
  let moodWords := tokensOf moodLower
  let cravingsWords := tokensOf cravingsLower
  restNamePhase cravingsWords cravingsLower (jsToLower r.name)
    (restTagPhase cravingsWords moodWords cravingsLower r.tags)

/-- The fixed cuisine vocabulary of the zero-score fallback. -/
def cuisineVocab : List String :=
  ["pizza", "chinese", "mexican", "bbq", "vegan", "sushi", "burger", "thai", "italian", "spicy"]

/-- A scored restaurant candidate as built by the fallback scorer. -/
structure ScoredRest where
  placeId : String
  reasoning : String
  score : ℚ
  hasDirectMatch : Bool
deriving DecidableEq

/-- Per-candidate restaurant fallback scoring: matching pass, cuisine-keyword
fallback (`score = 0.1`), and reasoning-text assembly. -/
def scoreRestaurant (mood cravings : String) (r : Restaurant) : ScoredRest :=
  let acc0 := restMatchAcc mood cravings r
  let acc :=
    if acc0.score = 0 then
      match r.tags.filter (fun t => cuisineVocab.any (fun ft => jsIncludes (jsToLower t) ft)) with
      | f :: _ =>
        { acc0 with
          score := 1/10
          reasoningParts := acc0.reasoningParts ++ ["serves " ++ f] }
      | [] => acc0
    else acc0
  let reasoning := r.name ++ " - " ++
    (if acc.reasoningParts.length > 0 then jsJoin " & " (acc.reasoningParts.take 2)
     else jsJoin ", " (r.tags.take 2))
  { placeId := r.placeId, reasoning := reasoning, score := acc.score,
    hasDirectMatch := acc.hasDirectMatch }

/-- The total preorder realised by the restaurant comparator: direct matches
first, then score descending. `restLe a b` holds iff the JS comparator value
`cmp a b` is ≤ 0, i.e. a stable sort may place `a` before `b`. -/
def restLe (a b : ScoredRest) : Prop :=
  (a.hasDirectMatch = true ∧ b.hasDirectMatch = false) ∨
    (a.hasDirectMatch = b.hasDirectMatch ∧ b.score ≤ a.score)

instance : DecidableRel restLe := fun a b => by unfold restLe; infer_instance

instance : IsTotal ScoredRest restLe := by
  constructor
  intro a b
  unfold restLe
  rcases ha : a.hasDirectMatch <;> rcases hb : b.hasDirectMatch
  · rcases le_total a.score b.score with h | h
    · exact Or.inr (Or.inr ⟨rfl, h⟩)
    · exact Or.inl (Or.inr ⟨rfl, h⟩)
  · exact Or.inr (Or.inl ⟨rfl, rfl⟩)
  · exact Or.inl (Or.inl ⟨rfl, rfl⟩)
  · rcases le_total a.score b.score with h | h
    · exact Or.inr (Or.inr ⟨rfl, h⟩)
    · exact Or.inl (Or.inr ⟨rfl, h⟩)

instance : IsTrans ScoredRest restLe := by
  constructor
  intro a b c hab hbc
  unfold restLe at *
  rcases hab with ⟨ha, hb⟩ | ⟨hab, hsab⟩
  · rcases hbc with ⟨hb2, hc⟩ | ⟨hbc, hsbc⟩
    · rw [hb] at hb2; exact absurd hb2 (by simp)
    · exact Or.inl ⟨ha, hbc ▸ hb⟩
  · rcases hbc with ⟨hb2, hc⟩ | ⟨hbc, hsbc⟩
    · exact Or.inl ⟨hab ▸ hb2, hc⟩
    · exact Or.inr ⟨hab.trans hbc, hsbc.trans hsab⟩

/-- The scored-sorted-filtered restaurant pipeline: score every candidate, sort
with the direct-match-first comparator (stable), keep strictly positive
scores (`.filter(r => r.score > 0)`). -/
def rankedScoredRestaurants (mood cravings : String) (rs : List Restaurant) : List ScoredRest :=
  ((rs.map (scoreRestaurant mood cravings)).insertionSort restLe).filter
    (fun a => decide (0 < a.score))

/-- A ranked-restaurant suggestion `{placeId, reasoning}` as returned to the
caller. -/
structure Suggestion where
  placeId : String
  reasoning : String
deriving DecidableEq

/-- The value returned (and cached) by the restaurant fallback path
(reasoning truncated to 120 characters). -/
def fallbackRestaurantSuggestions (mood cravings : String) (rs : List Restaurant) :
    List Suggestion :=
  (rankedScoredRestaurants mood cravings rs).map (fun a => ⟨a.placeId, jsSubstrTo a.reasoning 120⟩)


/-! ### Hotspot fallback scorer (`getAiFilteredHotspots`, catch branch) -/

/-- The accumulated hotspot score before the zero-score logarithmic baseline:
tag matches (craving +2, mood +1.5), name matches (craving +3 with the
`word.includes(firstNameWord)` reverse test, mood +2), popularity bonus
(+2 above 8000 reviews, +1 above 6000). -/
def hotspotBase (mood cravings : String) (h : Hotspot) : ℚ :=
  let moodWords := tokensOf (jsToLower mood)
  let cravingsWords := tokensOf (jsToLower cravings)
  let tagScore := h.tags.foldl (fun s tag =>
    let tagLower := jsToLower tag
    let s1 := cravingsWords.foldl (fun s w => if tagTokenHit tagLower w then s + 2 else s) s
    moodWords.foldl (fun s w => if tagTokenHit tagLower w then s + 3/2 else s) s1) 0
  let nameLower := jsToLower h.name
  let firstNameWord := (jsSplitWs nameLower).headD ""
  let s1 := cravingsWords.foldl
    (fun s w => if jsIncludes nameLower w || jsIncludes w firstNameWord then s + 3 else s) tagScore
  let s2 := moodWords.foldl (fun s w => if jsIncludes nameLower w then s + 2 else s) s1
  if h.review_count > 8000 then s2 + 2 else if h.review_count > 6000 then s2 + 1 else s2

/-- The final hotspot score: the accumulated score, or — exactly when it is 0 —
the popularity-only baseline `Math.log(review_count || 1) / 10`. -/
noncomputable def hotspotScore (mood cravings : String) (h : Hotspot) : ℝ :=
  let base := hotspotBase mood cravings h
  if base = 0 then
    Real.log ((if h.review_count = 0 then 1 else h.review_count : Nat) : ℝ) / 10
  else (base : ℝ)

/-- A hotspot paired with its fallback score (the `{...h, score}` spread). -/
structure ScoredHot where
  hot : Hotspot
  score : ℝ

/-- The comparator `(a, b) => b.score - a.score`: `hotLe a b` iff the
comparator value is ≤ 0, i.e. a stable sort may place `a` before `b`. -/
def hotLe (a b : ScoredHot) : Prop := b.score ≤ a.score

noncomputable instance : DecidableRel hotLe :=
  fun a b => inferInstanceAs (Decidable (b.score ≤ a.score))

instance : IsTotal ScoredHot hotLe := ⟨fun a b => le_total b.score a.score⟩

instance : IsTrans ScoredHot hotLe := ⟨fun _ _ _ hab hbc => le_trans hbc hab⟩

/-- The scoring stage of the hotspot fallback. -/
noncomputable def scoredHotspots (mood cravings : String) (hs : List Hotspot) : List ScoredHot :=
  hs.map (fun h => ⟨h, hotspotScore mood cravings h⟩)

/-- The value returned (and cached) by the hotspot fallback path: all hotspots,
reordered by score descending (stable), scores stripped. -/
noncomputable def fallbackHotspots (mood cravings : String) (hs : List Hotspot) : List Hotspot :=
  ((scoredHotspots mood cravings hs).insertionSort hotLe).map ScoredHot.hot

/-! ### Cache and resolvers -/

/-- The process-wide `aiSearchCache` (a JS `Map`), modelled per value type as
an association list with first-match lookup. -/
abbrev Cache (V : Type) := List (String × V)

/-- JS `cache.set(key, value)`: overwrite any previous binding. -/
def cacheSet {V : Type} (c : Cache V) (k : String) (v : V) : Cache V :=
  (k, v) :: c.filter (fun p => !(p.1 == k))

/-- The cache key `hotspots-${mood}-${cravings}`. -/
def hotspotsKey (mood cravings : String) : String := "hotspots-" ++ mood ++ "-" ++ cravings

/-- The cache key `restaurants-${mood}-${cravings}`. -/
def restaurantsKey (mood cravings : String) : String := "restaurants-" ++ mood ++ "-" ++ cravings

/-- Observable outcome of the `fetch` to the backend, as seen by the
resolver's try block: the fetch may reject (network failure), return a
non-success response whose error body may carry the `fallback` flag (`none`
models an unparseable error body, which `.catch(() => ({}))` turns into `{}`),
return a success response whose body fails to parse as JSON, or return a
parsed success payload (`none` models a body without the expected key, which
`result.hotspots || []` turns into `[]`). -/
inductive RemoteOutcome (α : Type) where
  | netError : RemoteOutcome α
  | httpError (status : Nat) (fallbackFlag : Option Bool) : RemoteOutcome α
  | badJson : RemoteOutcome α
  | ok (payload : α) : RemoteOutcome α

/-- Every outcome except a parsed success payload makes the try block throw
and is recovered by the catch branch. -/
def RemoteOutcome.isFailure {α : Type} : RemoteOutcome α → Bool
  | .ok _ => false
  | _ => true

/-- What one resolver call produces: the returned value, the cache afterwards,
whether a network request was issued, the delay of the scheduled
`setTimeout(() => cache.delete(key), …)` if one was scheduled, and whether the
local fallback scorer ran. -/
structure ResolveOut (V : Type) where
  result : V
  cache : Cache V
  remoteCalled : Bool
  evictionDelayMs : Option Nat
  usedFallback : Bool

/-- `getAiFilteredHotspots(mood, cravings, userProfile, allHotspots, cache)`:
cache check, then the remote attempt, with the local scorer as the catch-all
fallback. The remote request is issued on every cache miss; only the success
path schedules the 300000 ms cache eviction. -/
noncomputable def resolveHotspots (mood cravings : String) (allHotspots : List Hotspot)
    (cache : Cache (List Hotspot)) (outcome : RemoteOutcome (Option (List Hotspot))) :
    ResolveOut (List Hotspot) :=
  let key := hotspotsKey mood cravings
  match cache.lookup key with
  | some v => ⟨v, cache, false, none, false⟩
  | none =>
    match outcome with
    | .ok payload =>
      let filteredHotspots := payload.getD []
      ⟨filteredHotspots, cacheSet cache key filteredHotspots, true, some 300000, false⟩
    | _ =>
      let filtered := fallbackHotspots mood cravings allHotspots
      ⟨filtered, cacheSet cache key filtered, true, none, true⟩

/-- A restaurant as returned by the backend ranking endpoint: the canonical
entity spread together with `aiReasoning`. -/
structure AiRestaurant where
  base : Restaurant
  aiReasoning : Option String
deriving DecidableEq

/-- The client's conversion of a backend-ranked restaurant to a suggestion:
`{placeId: r.placeId, reasoning: r.aiReasoning || name - cuisine}`. -/
def aiSuggestionOf (r : AiRestaurant) : Suggestion :=
  ⟨r.base.placeId, r.aiReasoning.getD (r.base.name ++ " - " ++ r.base.cuisine)⟩

/-- `getAiRankedRestaurants(mood, cravings, userProfile, allRestaurants, cache)`. -/
def resolveRestaurants (mood cravings : String) (allRestaurants : List Restaurant)
    (cache : Cache (List Suggestion)) (outcome : RemoteOutcome (Option (List AiRestaurant))) :
    ResolveOut (List Suggestion) :=
  let key := restaurantsKey mood cravings
  match cache.lookup key with
  | some v => ⟨v, cache, false, none, false⟩
  | none =>
    match outcome with
    | .ok payload =>
      let suggestions := (payload.getD []).map aiSuggestionOf
      ⟨suggestions, cacheSet cache key suggestions, true, some 300000, false⟩
    | _ =>
      let suggestions := fallbackRestaurantSuggestions mood cravings allRestaurants
      ⟨suggestions, cacheSet cache key suggestions, true, none, true⟩

/-! ### Backend ranking endpoints (foodie-backend/server.js) -/

/-- The pass-through user profile. -/
structure Profile where
  name : String
  age : Nat
  location : String

/-- A backend response: a success payload, a 400 validation rejection (no
`fallback` flag in the body), or the 500 response with `{fallback: true}`
produced by the catch-all when the AI call fails or its text contains no
well-formed JSON array. -/
inductive ServerResp (α : Type) where
  | ok (payload : α) : ServerResp α
  | badRequest : ServerResp α
  | aiFailure : ServerResp α

/-- Placeholder entity for the (unreachable after the range filter) JS
`array[i]` out-of-range access. -/
def dummyRestaurant : Restaurant := ⟨"", "", [], ""⟩

/-- Placeholder hotspot, as `dummyRestaurant`. -/
def dummyHotspot : Hotspot := ⟨"", [], 0⟩

/-- The index filter and projection of `POST /api/ai/filter-hotspots`:
`indices.filter(i => i >= 0 && i < hotspots.length).map(i => hotspots[i])`. -/
def serverFilteredHotspotList (hotspots : List Hotspot) (indices : List Int) : List Hotspot :=
  (indices.filter (fun i => decide (0 ≤ i) && decide (i < (hotspots.length : Int)))).map
    (fun i => hotspots.getD i.toNat dummyHotspot)

/-- `POST /api/ai/filter-hotspots`: field validation, non-empty-array
validation, then the AI call; `aiIndices = none` models an AI error or a
response text without a well-formed array (both reach the catch-all). -/
def serverFilterHotspots (mood cravings : String) (profile : Option Profile)
    (hotspots : List Hotspot) (aiIndices : Option (List Int)) : ServerResp (List Hotspot) :=
  if mood.isEmpty || cravings.isEmpty || profile.isNone then .badRequest
  else if hotspots.isEmpty then .badRequest
  else
    match aiIndices with
    | none => .aiFailure
    | some idxs => .ok (serverFilteredHotspotList hotspots idxs)

/-- The index filter and projection of `POST /api/ai/rank-restaurants`:
`rankings.filter(r => r.index >= 0 && r.index < restaurants.length)
.map(r => ({...restaurants[r.index], aiReasoning: r.reasoning}))`. -/
def serverRankedList (restaurants : List Restaurant) (rankings : List (Int × String)) :
    List AiRestaurant :=
  (rankings.filter (fun p => decide (0 ≤ p.1) && decide (p.1 < (restaurants.length : Int)))).map
    (fun p => ⟨restaurants.getD p.1.toNat dummyRestaurant, some p.2⟩)

/-- `POST /api/ai/rank-restaurants`. -/
def serverRankRestaurants (mood cravings : String) (profile : Option Profile)
    (restaurants : List Restaurant) (aiRankings : Option (List (Int × String))) :
    ServerResp (List AiRestaurant) :=
  if mood.isEmpty || cravings.isEmpty || profile.isNone then .badRequest
  else if restaurants.isEmpty then .badRequest
  else
    match aiRankings with
    | none => .aiFailure
    | some rankings => .ok (serverRankedList restaurants rankings)

/-- How a backend response is observed by the client's try block. -/
def ServerResp.toOutcome {α : Type} : ServerResp α → RemoteOutcome (Option α)
  | .ok p => .ok (some p)
  | .badRequest => .httpError 400 (some false)
  | .aiFailure => .httpError 500 (some true)

/-- Client resolver composed with the backend endpoint (hotspots). -/
noncomputable def resolveHotspotsE2E (mood cravings : String) (profile : Option Profile)
    (allHotspots : List Hotspot) (cache : Cache (List Hotspot))
    (aiIndices : Option (List Int)) : ResolveOut (List Hotspot) :=
  resolveHotspots mood cravings allHotspots cache
    (serverFilterHotspots mood cravings profile allHotspots aiIndices).toOutcome

/-- Client resolver composed with the backend endpoint (restaurants). -/
def resolveRestaurantsE2E (mood cravings : String) (profile : Option Profile)
    (allRestaurants : List Restaurant) (cache : Cache (List Suggestion))
    (aiRankings : Option (List (Int × String))) : ResolveOut (List Suggestion) :=
  resolveRestaurants mood cravings allRestaurants cache
    (serverRankRestaurants mood cravings profile allRestaurants aiRankings).toOutcome

/-! ### Result reconciliation (`handleSearch`) -/

/-- `new Map(allRestaurants.map(r => [r.placeId, r])).get(pid)`: the last
entity with the given placeId, if any. -/
def restaurantMapGet (canon : List Restaurant) (pid : String) : Option Restaurant :=
  canon.reverse.find? (fun r => r.placeId == pid)

/-- `rankedRestaurantSuggestions.map(r => restaurantMap.get(r.placeId)).filter(Boolean)`. -/
def reconcileRestaurants (sugg : List Suggestion) (canon : List Restaurant) : List Restaurant :=
  sugg.filterMap (fun s => restaurantMapGet canon s.placeId)

/-! ### Request shaping (services/api.js vs the resolvers' raw fetch) -/

/-- The observable shape of one outgoing HTTP request: URL, method, whether an
`AbortController` signal is attached, and the delay of the `setTimeout` that
would abort it. -/
structure FetchSpec where
  url : String
  method : String
  hasAbortSignal : Bool
  timeoutMs : Option Nat
deriving DecidableEq

/-- The request issued by `getAiFilteredHotspots`: a plain `fetch` with
method/headers/body only — no abort signal, no timeout. -/
def hotspotsFetchSpec (apiUrl : String) : FetchSpec :=
  ⟨apiUrl ++ "/ai/filter-hotspots", "POST", false, none⟩

/-- The request issued by `getAiRankedRestaurants`: likewise a plain `fetch`. -/
def restaurantsFetchSpec (apiUrl : String) : FetchSpec :=
  ⟨apiUrl ++ "/ai/rank-restaurants", "POST", false, none⟩

/-- The request issued by `apiRequest` in services/api.js: an
`AbortController` signal plus `setTimeout(() => controller.abort(), 10000)`. -/
def apiRequestFetchSpec (apiUrl endpoint method : String) : FetchSpec :=
  ⟨apiUrl ++ endpoint, method, true, some 10000⟩

/-- The `APIError(message, status, data)` raised by `apiRequest`. -/
structure ApiErrorModel where
  message : String
  status : Nat
deriving DecidableEq

/-- `ERROR_MESSAGES.TIMEOUT` from utils/constants.js. -/
def errorMessageTimeout : String := "Request timed out. Please try again."

/-- `ERROR_MESSAGES.NETWORK` from utils/constants.js. -/
def errorMessageNetwork : String := "Network error. Please check your connection."

/-- The two rejection paths of `apiRequest`'s catch clause: an `AbortError`
(the 10 s timer fired) becomes `APIError(TIMEOUT, 408)`, any other non-API
failure becomes `APIError(NETWORK, 0)`. -/
inductive FetchFailure where
  | abortError : FetchFailure
  | other : FetchFailure

/-- The error `apiRequest` throws for a given fetch failure. -/
def apiRequestFailure : FetchFailure → ApiErrorModel
  | .abortError => ⟨errorMessageTimeout, 408⟩
  | .other => ⟨errorMessageNetwork, 0⟩

/-! ### Stability of the embedded stable sort

`List.insertionSort r` keeps elements with equal comparison keys in input
order; this is captured by: filtering the sorted list to one comparison class
gives exactly the input filtered to that class. -/

theorem filter_key_orderedInsert {α κ : Type} (r : α → α → Prop) [DecidableRel r]
    [DecidableEq κ] (k : α → κ) (hk : ∀ a b, k a = k b → r a b) (x : α) (c : κ)
    (l : List α) :
    (l.orderedInsert r x).filter (fun y => decide (k y = c)) =
      if k x = c then x :: l.filter (fun y => decide (k y = c))
      else l.filter (fun y => decide (k y = c)) := by
  induction l with
  | nil =>
    simp only [List.orderedInsert, List.filter_cons, List.filter_nil]
    by_cases hx : k x = c <;> simp [hx]
  | cons y ys ih =>
    by_cases hxy : r x y
    · simp only [List.orderedInsert, if_pos hxy]
      by_cases hx : k x = c <;> by_cases hy : k y = c <;>
        simp [List.filter_cons, hx, hy]
    · simp only [List.orderedInsert, if_neg hxy]
      have hne : k x ≠ k y := fun h => hxy (hk x y h)
      by_cases hx : k x = c
      · have hy : ¬ k y = c := fun h => hne (hx.trans h.symm)
        simp [List.filter_cons, hy, ih, hx]
      · by_cases hy : k y = c <;> simp [List.filter_cons, hy, ih, hx]

theorem filter_key_insertionSort {α κ : Type} (r : α → α → Prop) [DecidableRel r]
    [DecidableEq κ] (k : α → κ) (hk : ∀ a b, k a = k b → r a b) (c : κ)
    (l : List α) :
    (l.insertionSort r).filter (fun y => decide (k y = c)) =
      l.filter (fun y => decide (k y = c)) := by
  induction l with
  | nil => rfl
  | cons x xs ih =>
    simp only [List.insertionSort]
    rw [filter_key_orderedInsert r k hk x c]
    by_cases hx : k x = c <;> simp [List.filter_cons, hx, ih]

/-- Elements with equal (direct-match, score) keys are tied under `restLe`. -/
theorem restLe_of_key_eq (a b : ScoredRest)
    (h : (a.hasDirectMatch, a.score) = (b.hasDirectMatch, b.score)) : restLe a b := by
  have h1 := congrArg Prod.fst h
  have h2 := congrArg Prod.snd h
  exact Or.inr ⟨h1, le_of_eq h2.symm⟩

/-- Equal-score hotspots are tied under `hotLe`. -/
theorem hotLe_of_key_eq (a b : ScoredHot) (h : a.score = b.score) : hotLe a b :=
  le_of_eq h.symm

/-- C3: in fallback mode the restaurant result consists of exactly the scored
candidates with strictly positive score, ordered by the direct-match flag
(true first) and then by score descending, ties kept in input order
(formalised as: the result is the positive-score filter of the scored
candidates up to permutation, it is sorted by the comparator preorder, and
each comparison class appears in input order). -/
theorem C3_restaurant_ranking_shape (mood cravings : String) (rs : List Restaurant) :
    fallbackRestaurantSuggestions mood cravings rs =
        (rankedScoredRestaurants mood cravings rs).map
          (fun a => ⟨a.placeId, jsSubstrTo a.reasoning 120⟩)
    ∧ (rankedScoredRestaurants mood cravings rs).Perm
        ((rs.map (scoreRestaurant mood cravings)).filter (fun a => decide (0 < a.score)))
    ∧ List.Sorted restLe (rankedScoredRestaurants mood cravings rs)
    ∧ ∀ (d : Bool) (q : ℚ),
        (rankedScoredRestaurants mood cravings rs).filter
            (fun a => decide ((a.hasDirectMatch, a.score) = (d, q)))
          = ((rs.map (scoreRestaurant mood cravings)).filter
              (fun a => decide (0 < a.score))).filter
              (fun a => decide ((a.hasDirectMatch, a.score) = (d, q))) := by
  refine ⟨rfl, ?_, ?_, ?_⟩
  · exact (List.perm_insertionSort restLe _).filter _
  · exact List.Sorted.filter _ (List.sorted_insertionSort restLe _)
  · intro d q
    unfold rankedScoredRestaurants
    rw [List.filter_comm]
    rw [filter_key_insertionSort restLe (fun a => (a.hasDirectMatch, a.score))
      restLe_of_key_eq (d, q)]
    rw [List.filter_comm]

/-- C4: in fallback mode the hotspot result has the same length as the input
and is the input reordered by score descending, ties kept in input order
(formalised as: the sorted stage is a permutation of the scored input, it is
sorted by score descending, and each score class appears in input order). -/
theorem C4_hotspot_ranking_shape (mood cravings : String) (hs : List Hotspot) :
    (fallbackHotspots mood cravings hs).length = hs.length
    ∧ fallbackHotspots mood cravings hs =
        ((scoredHotspots mood cravings hs).insertionSort hotLe).map ScoredHot.hot
    ∧ ((scoredHotspots mood cravings hs).insertionSort hotLe).Perm
        (scoredHotspots mood cravings hs)
    ∧ List.Sorted hotLe ((scoredHotspots mood cravings hs).insertionSort hotLe)
    ∧ ∀ q : ℝ,
        ((scoredHotspots mood cravings hs).insertionSort hotLe).filter
            (fun a => decide (a.score = q))
          = (scoredHotspots mood cravings hs).filter (fun a => decide (a.score = q)) := by
  refine ⟨?_, rfl, List.perm_insertionSort hotLe _, List.sorted_insertionSort hotLe _, ?_⟩
  · simp [fallbackHotspots, scoredHotspots]
  · intro q
    exact filter_key_insertionSort hotLe ScoredHot.score hotLe_of_key_eq q _

/-! ### Closed form of the restaurant matching score -/

theorem foldl_cravTagStep_score (tagLower tag : String) (ws : List String) (acc : RestAcc) :
    (ws.foldl (cravTagStep tagLower tag) acc).score =
      acc.score + 3 * (ws.countP (tagTokenHit tagLower) : ℚ) := by
  induction ws generalizing acc with
  | nil => simp
  | cons w ws ih =>
    rw [List.foldl_cons, List.countP_cons, ih]
    by_cases h : tagTokenHit tagLower w = true
    · simp only [cravTagStep, if_pos h, h]
      push_cast
      ring
    · simp only [cravTagStep, if_neg h, Bool.not_eq_true] at *
      simp [h]

theorem foldl_moodTagStep_score (tagLower tag : String) (ws : List String) (acc : RestAcc) :
    (ws.foldl (moodTagStep tagLower tag) acc).score =
      acc.score + (3/2) * (ws.countP (tagTokenHit tagLower) : ℚ) := by
  induction ws generalizing acc with
  | nil => simp
  | cons w ws ih =>
    rw [List.foldl_cons, List.countP_cons, ih]
    by_cases h : tagTokenHit tagLower w = true
    · simp only [moodTagStep, if_pos h, h]
      push_cast
      ring
    · simp only [moodTagStep, if_neg h, Bool.not_eq_true] at *
      simp [h]

theorem foldl_cravNameStep_score (nameLower : String) (ws : List String) (acc : RestAcc) :
    (ws.foldl (cravNameStep nameLower) acc).score =
      acc.score + 2 * (ws.countP (fun w => jsIncludes nameLower w) : ℚ) := by
  induction ws generalizing acc with
  | nil => simp
  | cons w ws ih =>
    rw [List.foldl_cons, List.countP_cons, ih]
    by_cases h : jsIncludes nameLower w = true
    · simp only [cravNameStep, if_pos h, h]
      push_cast
      ring
    · simp only [cravNameStep, if_neg h, Bool.not_eq_true] at *
      simp [h]

theorem restTagStep_score (cw mw : List String) (cl : String) (acc : RestAcc) (tag : String) :
    (restTagStep cw mw cl acc tag).score = acc.score
      + 3 * (cw.countP (tagTokenHit (jsToLower tag)) : ℚ)
      + (if tagTokenHit (jsToLower tag) cl then (4 : ℚ) else 0)
      + (3/2) * (mw.countP (tagTokenHit (jsToLower tag)) : ℚ) := by
  unfold restTagStep
  rw [foldl_moodTagStep_score]
  by_cases h : tagTokenHit (jsToLower tag) cl = true
  · simp only [if_pos h, h, if_true]
    rw [foldl_cravTagStep_score]
  · simp only [if_neg h]
    rw [foldl_cravTagStep_score]
    simp only [Bool.not_eq_true] at h
    simp [h]

theorem foldl_restTagStep_score (cw mw : List String) (cl : String) (tags : List String)
    (acc : RestAcc) :
    (tags.foldl (restTagStep cw mw cl) acc).score = acc.score
      + 3 * ((tags.map (fun t => (cw.countP (tagTokenHit (jsToLower t)) : ℚ))).sum)
      + 4 * (tags.countP (fun t => tagTokenHit (jsToLower t) cl) : ℚ)
      + (3/2) * ((tags.map (fun t => (mw.countP (tagTokenHit (jsToLower t)) : ℚ))).sum) := by
  induction tags generalizing acc with
  | nil => simp
  | cons t ts ih =>
    rw [List.foldl_cons, ih, restTagStep_score, List.map_cons, List.sum_cons,
      List.map_cons, List.sum_cons, List.countP_cons]
    by_cases h : tagTokenHit (jsToLower t) cl = true
    · simp only [h, if_true]
      push_cast
      ring
    · simp only [Bool.not_eq_true] at h
      simp only [h]
      push_cast
      ring

theorem restTagPhase_score (cw mw : List String) (cl : String) (tags : List String) :
    (restTagPhase cw mw cl tags).score =
      3 * ((tags.map (fun t => (cw.countP (tagTokenHit (jsToLower t)) : ℚ))).sum)
      + 4 * (tags.countP (fun t => tagTokenHit (jsToLower t) cl) : ℚ)
      + (3/2) * ((tags.map (fun t => (mw.countP (tagTokenHit (jsToLower t)) : ℚ))).sum) := by
  unfold restTagPhase
  by_cases h : tags.length > 0
  · rw [if_pos h]
    dsimp only
    split
    · dsimp only
      rw [foldl_restTagStep_score]
      ring
    · rw [foldl_restTagStep_score]
      ring
  · rw [if_neg h]
    have : tags = [] := List.length_eq_zero.mp (by omega)
    subst this
    simp

theorem restNamePhase_score (cw : List String) (cl nl : String) (acc : RestAcc) :
    (restNamePhase cw cl nl acc).score = acc.score
      + 2 * (cw.countP (fun w => jsIncludes nl w) : ℚ)
      + (if jsIncludes nl cl then (3 : ℚ) else 0) := by
  unfold restNamePhase
  dsimp only
  by_cases h : jsIncludes nl cl = true
  · rw [if_pos h, if_pos h]
    dsimp only
    rw [foldl_cravNameStep_score]
  · rw [if_neg h, if_neg h]
    rw [foldl_cravNameStep_score]
    ring

/-- Closed form of the accumulated matching score of the restaurant fallback
scorer: +3 per (tag, craving token) hit, +4 per tag matching the full craving
phrase, +1.5 per (tag, mood token) hit, +2 per craving token in the name,
+3 once if the full craving phrase occurs in the name. -/
theorem restMatchAcc_score (mood cravings : String) (r : Restaurant) :
    (restMatchAcc mood cravings r).score =
      3 * ((r.tags.map (fun t =>
          ((tokensOf (jsTrim (jsToLower cravings))).countP (tagTokenHit (jsToLower t)) : ℚ))).sum)
      + 4 * (r.tags.countP
          (fun t => tagTokenHit (jsToLower t) (jsTrim (jsToLower cravings))) : ℚ)
      + (3/2) * ((r.tags.map (fun t =>
          ((tokensOf (jsTrim (jsToLower mood))).countP (tagTokenHit (jsToLower t)) : ℚ))).sum)
      + 2 * ((tokensOf (jsTrim (jsToLower cravings))).countP
          (fun w => jsIncludes (jsToLower r.name) w) : ℚ)
      + (if jsIncludes (jsToLower r.name) (jsTrim (jsToLower cravings)) then (3 : ℚ) else 0) := by
  unfold restMatchAcc
  rw [restNamePhase_score, restTagPhase_score]

/-- The final per-candidate restaurant score is the accumulated matching score,
except that a zero matching score with a cuisine-vocabulary tag present is
overridden to 0.1. -/
theorem scoreRestaurant_score_cases (mood cravings : String) (r : Restaurant) :
    (scoreRestaurant mood cravings r).score =
      if (restMatchAcc mood cravings r).score = 0 ∧
          r.tags.filter (fun t => cuisineVocab.any (fun ft => jsIncludes (jsToLower t) ft)) ≠ []
      then 1/10 else (restMatchAcc mood cravings r).score := by
  unfold scoreRestaurant
  dsimp only
  rw [apply_ite RestAcc.score]
  by_cases h0 : (restMatchAcc mood cravings r).score = 0
  · rw [if_pos h0]
    cases hft : r.tags.filter (fun t => cuisineVocab.any (fun ft => jsIncludes (jsToLower t) ft)) with
    | nil =>
      dsimp only
      rw [if_neg (by simp)]
    | cons f fs =>
      dsimp only
      rw [if_pos ⟨h0, by simp⟩]
  · rw [if_neg h0, if_neg (by simp [h0])]

/-- Modelled from the claim's words, not from the source: the weights the spec
sentence assigns to a fallback-mode restaurant score (+2 per tag/craving-token
pair, +1.5 per tag/mood-token pair, +3 per craving token in the name, +2 per
mood token in the name, +4 once if the full craving phrase matches some tag,
+3 if the full craving phrase occurs in the name), for comparison with the
implemented `restMatchAcc`. -/
def claimedRestaurantScore (mood cravings : String) (r : Restaurant) : ℚ :=
  let cravingsLower := jsTrim (jsToLower cravings)
  let moodWords := tokensOf (jsTrim (jsToLower mood))
  let cravingsWords := tokensOf cravingsLower
  let nameLower := jsToLower r.name
  2 * ((r.tags.map (fun t => (cravingsWords.countP (tagTokenHit (jsToLower t)) : ℚ))).sum)
    + (3/2) * ((r.tags.map (fun t => (moodWords.countP (tagTokenHit (jsToLower t)) : ℚ))).sum)
    + 3 * (cravingsWords.countP (fun w => jsIncludes nameLower w) : ℚ)
    + 2 * (moodWords.countP (fun w => jsIncludes nameLower w) : ℚ)
    + (if r.tags.any (fun t => tagTokenHit (jsToLower t) cravingsLower) then (4 : ℚ) else 0)
    + (if jsIncludes nameLower cravingsLower then (3 : ℚ) else 0)

/-- A one-tag restaurant on which the claimed and the implemented weights
disagree. -/
def pizzaJoe : Restaurant := ⟨"p1", "Joe", ["pizza"], "Pizza"⟩

/-- C2 (counterexample): with cravings "pizza", no mood tokens, and the single
tag "pizza", the implemented scorer accumulates 3 (tag/craving token) + 4
(phrase/tag) = 7, while the claimed weights give 2 + 4 = 6. -/
theorem C2_weights_counterexample :
    (restMatchAcc "" "pizza" pizzaJoe).score = 7 ∧
    claimedRestaurantScore "" "pizza" pizzaJoe = 6 := by
  have e1 : tokensOf (jsTrim (jsToLower "pizza")) = ["pizza"] := by decide
  have e2 : tokensOf (jsTrim (jsToLower "")) = [] := by decide
  have b1 : tagTokenHit (jsToLower "pizza") (jsTrim (jsToLower "pizza")) = true := by decide
  have b2 : tagTokenHit (jsToLower "pizza") "pizza" = true := by decide
  have b3 : jsIncludes (jsToLower "Joe") "pizza" = false := by decide
  have b4 : jsIncludes (jsToLower "Joe") (jsTrim (jsToLower "pizza")) = false := by decide
  constructor
  · rw [restMatchAcc_score]
    simp only [pizzaJoe, e1, e2, List.map_cons, List.map_nil, List.sum_cons, List.sum_nil,
      List.countP_cons, List.countP_nil, b1, b2, b3, b4, if_true, if_false]
    norm_num
  · unfold claimedRestaurantScore
    dsimp only
    simp only [pizzaJoe, e1, e2, List.map_cons, List.map_nil, List.sum_cons, List.sum_nil,
      List.countP_cons, List.countP_nil, List.any_cons, List.any_nil, b1, b2, b3, b4,
      if_true, if_false]
    norm_num

/-- C2 (amended): in a fallback-mode restaurant scoring run the accumulated
matching score is the sum of +3 per (tag, craving-token) pair passing the
two-directional substring test, +4 per tag matching the full craving phrase
(either direction), +1.5 per (tag, mood-token) pair, +2 per craving token
contained in the lower-cased name, and +3 if the full craving phrase is a
substring of the name; there is no mood-token/name bonus. The candidate's
final score equals this accumulated score except that a zero score with a
cuisine-vocabulary tag present becomes 0.1. -/
theorem C2_fallback_restaurant_score (mood cravings : String) (r : Restaurant) :
    ((restMatchAcc mood cravings r).score =
      3 * ((r.tags.map (fun t =>
          ((tokensOf (jsTrim (jsToLower cravings))).countP (tagTokenHit (jsToLower t)) : ℚ))).sum)
      + 4 * (r.tags.countP
          (fun t => tagTokenHit (jsToLower t) (jsTrim (jsToLower cravings))) : ℚ)
      + (3/2) * ((r.tags.map (fun t =>
          ((tokensOf (jsTrim (jsToLower mood))).countP (tagTokenHit (jsToLower t)) : ℚ))).sum)
      + 2 * ((tokensOf (jsTrim (jsToLower cravings))).countP
          (fun w => jsIncludes (jsToLower r.name) w) : ℚ)
      + (if jsIncludes (jsToLower r.name) (jsTrim (jsToLower cravings)) then (3 : ℚ) else 0))
    ∧ (scoreRestaurant mood cravings r).score =
        (if (restMatchAcc mood cravings r).score = 0 ∧
            r.tags.filter (fun t => cuisineVocab.any (fun ft => jsIncludes (jsToLower t) ft)) ≠ []
         then 1/10 else (restMatchAcc mood cravings r).score) :=
  ⟨restMatchAcc_score mood cravings r, scoreRestaurant_score_cases mood cravings r⟩

/-! ### Resolver behaviour -/

theorem cacheSet_lookup {V : Type} (c : Cache V) (k : String) (v : V) :
    (cacheSet c k v).lookup k = some v := by
  simp [cacheSet, List.lookup]

/-- C1: on a cache miss, every failing remote outcome — network rejection,
non-success HTTP status with or without the explicit fallback flag in the
error body, unparseable success body — makes both resolvers return exactly the
local fallback scorer's result; no error propagates (the resolvers are total). -/
theorem C1_remote_failure_falls_back (mood cravings : String)
    (hs : List Hotspot) (rs : List Restaurant)
    (ch : Cache (List Hotspot)) (cr : Cache (List Suggestion))
    (oh : RemoteOutcome (Option (List Hotspot)))
    (oR : RemoteOutcome (Option (List AiRestaurant)))
    (hch : ch.lookup (hotspotsKey mood cravings) = none)
    (hcr : cr.lookup (restaurantsKey mood cravings) = none)
    (hoh : oh.isFailure = true) (hoR : oR.isFailure = true) :
    (resolveHotspots mood cravings hs ch oh).result = fallbackHotspots mood cravings hs
    ∧ (resolveHotspots mood cravings hs ch oh).usedFallback = true
    ∧ (resolveRestaurants mood cravings rs cr oR).result =
        fallbackRestaurantSuggestions mood cravings rs
    ∧ (resolveRestaurants mood cravings rs cr oR).usedFallback = true := by
  unfold resolveHotspots resolveRestaurants
  dsimp only
  rw [hch, hcr]
  cases oh <;> cases oR <;> simp_all [RemoteOutcome.isFailure]

theorem C1_remote_failure_falls_back_witness :
    (resolveHotspots "happy" "pizza" [] [] (.httpError 500 (some true))).result =
        fallbackHotspots "happy" "pizza" []
    ∧ (resolveHotspots "happy" "pizza" [] [] (.httpError 500 (some true))).usedFallback = true
    ∧ (resolveRestaurants "happy" "pizza" [] [] (.httpError 500 (some true))).result =
        fallbackRestaurantSuggestions "happy" "pizza" []
    ∧ (resolveRestaurants "happy" "pizza" [] [] (.httpError 500 (some true))).usedFallback = true :=
  C1_remote_failure_falls_back "happy" "pizza" [] [] [] []
    (.httpError 500 (some true)) (.httpError 500 (some true)) rfl rfl rfl rfl

/-- C6 (counterexample): with an empty candidate list (and a cache miss) the
hotspot resolver still issues the remote request — the backend then rejects it
with 400 and the local fallback produces the empty result. This refutes the
claimed "no remote ranking request is issued". -/
theorem C6_empty_input_still_calls_remote :
    (resolveHotspotsE2E "happy" "pizza" (some ⟨"Alice", 30, "NY"⟩) [] [] (some [0])).remoteCalled
        = true
    ∧ (resolveHotspotsE2E "happy" "pizza" (some ⟨"Alice", 30, "NY"⟩) [] [] (some [0])).result
        = [] := ⟨rfl, rfl⟩

/-- C6 (amended): an empty candidate sequence yields an empty RankedResult on
both resolvers, but (on a cache miss) the remote request is still issued —
the backend rejects it with 400 and the local fallback on the empty list
returns the empty result. -/
theorem C6_empty_candidates (mood cravings : String) (profile : Option Profile)
    (ch : Cache (List Hotspot)) (cr : Cache (List Suggestion))
    (aiIdx : Option (List Int)) (aiRank : Option (List (Int × String)))
    (hch : ch.lookup (hotspotsKey mood cravings) = none)
    (hcr : cr.lookup (restaurantsKey mood cravings) = none) :
    (resolveHotspotsE2E mood cravings profile [] ch aiIdx).result = []
    ∧ (resolveHotspotsE2E mood cravings profile [] ch aiIdx).remoteCalled = true
    ∧ (resolveRestaurantsE2E mood cravings profile [] cr aiRank).result = []
    ∧ (resolveRestaurantsE2E mood cravings profile [] cr aiRank).remoteCalled = true := by
  have hsrv : serverFilterHotspots mood cravings profile [] aiIdx = .badRequest := by
    unfold serverFilterHotspots
    split
    · rfl
    · simp
  have hsrv2 : serverRankRestaurants mood cravings profile [] aiRank = .badRequest := by
    unfold serverRankRestaurants
    split
    · rfl
    · simp
  unfold resolveHotspotsE2E resolveRestaurantsE2E
  rw [hsrv, hsrv2]
  unfold ServerResp.toOutcome resolveHotspots resolveRestaurants
  dsimp only
  rw [hch, hcr]
  exact ⟨rfl, rfl, rfl, rfl⟩

theorem C6_empty_candidates_witness :
    (resolveHotspotsE2E "sad" "sushi" (some ⟨"Alice", 30, "NY"⟩) [] [] (some [0])).result = []
    ∧ (resolveHotspotsE2E "sad" "sushi" (some ⟨"Alice", 30, "NY"⟩) [] [] (some [0])).remoteCalled
        = true
    ∧ (resolveRestaurantsE2E "sad" "sushi" (some ⟨"Alice", 30, "NY"⟩) [] [] (some [])).result = []
    ∧ (resolveRestaurantsE2E "sad" "sushi" (some ⟨"Alice", 30, "NY"⟩) [] []
        (some [])).remoteCalled = true :=
  C6_empty_candidates "sad" "sushi" (some ⟨"Alice", 30, "NY"⟩) [] [] (some [0]) (some [])
    rfl rfl

/-- C7: a live cache hit returns the stored value with no remote call, no
re-scoring, and no cache mutation; moreover, after any first resolution of a
signature, a second resolution with the identical signature returns the first
result unchanged, whatever the candidate list or remote outcome of the second
call. -/
theorem C7_cache_idempotence (mood cravings : String)
    (hs hs2 : List Hotspot) (rs rs2 : List Restaurant)
    (ch : Cache (List Hotspot)) (cr : Cache (List Suggestion))
    (vh : List Hotspot) (vr : List Suggestion)
    (oh oh2 : RemoteOutcome (Option (List Hotspot)))
    (oR oR2 : RemoteOutcome (Option (List AiRestaurant)))
    (hh : ch.lookup (hotspotsKey mood cravings) = some vh)
    (hr : cr.lookup (restaurantsKey mood cravings) = some vr) :
    ((resolveHotspots mood cravings hs ch oh).result = vh
      ∧ (resolveHotspots mood cravings hs ch oh).remoteCalled = false
      ∧ (resolveHotspots mood cravings hs ch oh).usedFallback = false
      ∧ (resolveHotspots mood cravings hs ch oh).cache = ch)
    ∧ ((resolveRestaurants mood cravings rs cr oR).result = vr
      ∧ (resolveRestaurants mood cravings rs cr oR).remoteCalled = false
      ∧ (resolveRestaurants mood cravings rs cr oR).usedFallback = false
      ∧ (resolveRestaurants mood cravings rs cr oR).cache = cr)
    ∧ (∀ c : Cache (List Hotspot),
        (resolveHotspots mood cravings hs2
            (resolveHotspots mood cravings hs c oh).cache oh2).result
          = (resolveHotspots mood cravings hs c oh).result)
    ∧ (∀ c : Cache (List Suggestion),
        (resolveRestaurants mood cravings rs2
            (resolveRestaurants mood cravings rs c oR).cache oR2).result
          = (resolveRestaurants mood cravings rs c oR).result) := by
  refine ⟨?_, ?_, ?_, ?_⟩
  · unfold resolveHotspots
    dsimp only
    rw [hh]
    exact ⟨rfl, rfl, rfl, rfl⟩
  · unfold resolveRestaurants
    dsimp only
    rw [hr]
    exact ⟨rfl, rfl, rfl, rfl⟩
  · intro c
    unfold resolveHotspots
    dsimp only
    cases hc : c.lookup (hotspotsKey mood cravings) with
    | some v => simp [hc]
    | none => cases oh <;> simp [hc, cacheSet_lookup]
  · intro c
    unfold resolveRestaurants
    dsimp only
    cases hc : c.lookup (restaurantsKey mood cravings) with
    | some v => simp [hc]
    | none => cases oR <;> simp [hc, cacheSet_lookup]

theorem C7_cache_idempotence_witness :
    (((resolveHotspots "happy" "pizza" [] [(hotspotsKey "happy" "pizza", [])] .netError).result
        = ([] : List Hotspot))
      ∧ (resolveHotspots "happy" "pizza" [] [(hotspotsKey "happy" "pizza", [])]
          .netError).remoteCalled = false
      ∧ (resolveHotspots "happy" "pizza" [] [(hotspotsKey "happy" "pizza", [])]
          .netError).usedFallback = false
      ∧ (resolveHotspots "happy" "pizza" [] [(hotspotsKey "happy" "pizza", [])]
          .netError).cache = [(hotspotsKey "happy" "pizza", [])])
    ∧ (((resolveRestaurants "happy" "pizza" [] [(restaurantsKey "happy" "pizza", [])]
          .netError).result = ([] : List Suggestion))
      ∧ (resolveRestaurants "happy" "pizza" [] [(restaurantsKey "happy" "pizza", [])]
          .netError).remoteCalled = false
      ∧ (resolveRestaurants "happy" "pizza" [] [(restaurantsKey "happy" "pizza", [])]
          .netError).usedFallback = false
      ∧ (resolveRestaurants "happy" "pizza" [] [(restaurantsKey "happy" "pizza", [])]
          .netError).cache = [(restaurantsKey "happy" "pizza", [])])
    ∧ (∀ c : Cache (List Hotspot),
        (resolveHotspots "happy" "pizza" []
            (resolveHotspots "happy" "pizza" [] c .netError).cache .netError).result
          = (resolveHotspots "happy" "pizza" [] c .netError).result)
    ∧ (∀ c : Cache (List Suggestion),
        (resolveRestaurants "happy" "pizza" []
            (resolveRestaurants "happy" "pizza" [] c .netError).cache .netError).result
          = (resolveRestaurants "happy" "pizza" [] c .netError).result) :=
  C7_cache_idempotence "happy" "pizza" [] [] [] []
    [(hotspotsKey "happy" "pizza", [])] [(restaurantsKey "happy" "pizza", [])] [] []
    .netError .netError .netError .netError rfl rfl

/-- C8 (counterexample): a fallback-path resolution creates a cache entry but
schedules no eviction at all, refuting "every cache entry is removed 300000 ms
after its creation". -/
theorem C8_fallback_entry_not_evicted :
    (resolveRestaurants "happy" "pizza" [] [] .netError).cache.lookup
        (restaurantsKey "happy" "pizza")
      = some (fallbackRestaurantSuggestions "happy" "pizza" [])
    ∧ (resolveRestaurants "happy" "pizza" [] [] .netError).evictionDelayMs = none := by
  exact ⟨cacheSet_lookup [] (restaurantsKey "happy" "pizza") _, rfl⟩

/-- C8 (amended): on a cache miss, an AI-path (success) resolution stores its
entry and schedules its removal 300000 ms later, while a fallback-path
resolution stores its entry and schedules no removal — fallback-created
entries are never automatically evicted. -/
theorem C8_eviction_schedule (mood cravings : String)
    (hs : List Hotspot) (rs : List Restaurant)
    (ch : Cache (List Hotspot)) (cr : Cache (List Suggestion))
    (ph : Option (List Hotspot)) (pr : Option (List AiRestaurant))
    (oh : RemoteOutcome (Option (List Hotspot)))
    (oR : RemoteOutcome (Option (List AiRestaurant)))
    (hch : ch.lookup (hotspotsKey mood cravings) = none)
    (hcr : cr.lookup (restaurantsKey mood cravings) = none)
    (hoh : oh.isFailure = true) (hoR : oR.isFailure = true) :
    (resolveHotspots mood cravings hs ch (.ok ph)).evictionDelayMs = some 300000
    ∧ (resolveRestaurants mood cravings rs cr (.ok pr)).evictionDelayMs = some 300000
    ∧ (resolveHotspots mood cravings hs ch oh).evictionDelayMs = none
    ∧ (resolveHotspots mood cravings hs ch oh).cache.lookup (hotspotsKey mood cravings)
        = some (fallbackHotspots mood cravings hs)
    ∧ (resolveRestaurants mood cravings rs cr oR).evictionDelayMs = none
    ∧ (resolveRestaurants mood cravings rs cr oR).cache.lookup (restaurantsKey mood cravings)
        = some (fallbackRestaurantSuggestions mood cravings rs) := by
  unfold resolveHotspots resolveRestaurants
  dsimp only
  rw [hch, hcr]
  cases oh <;> cases oR <;> simp_all [RemoteOutcome.isFailure, cacheSet_lookup]

theorem C8_eviction_schedule_witness :
    (resolveHotspots "happy" "pizza" [] [] (.ok none)).evictionDelayMs = some 300000
    ∧ (resolveRestaurants "happy" "pizza" [] [] (.ok none)).evictionDelayMs = some 300000
    ∧ (resolveHotspots "happy" "pizza" [] [] .badJson).evictionDelayMs = none
    ∧ (resolveHotspots "happy" "pizza" [] [] .badJson).cache.lookup
        (hotspotsKey "happy" "pizza") = some (fallbackHotspots "happy" "pizza" [])
    ∧ (resolveRestaurants "happy" "pizza" [] [] .badJson).evictionDelayMs = none
    ∧ (resolveRestaurants "happy" "pizza" [] [] .badJson).cache.lookup
        (restaurantsKey "happy" "pizza") = some (fallbackRestaurantSuggestions "happy" "pizza" []) :=
  C8_eviction_schedule "happy" "pizza" [] [] [] [] none none .badJson .badJson rfl rfl rfl rfl

/-! ### Referential integrity and reconciliation -/

/-- C5: every entity in a result delivered to the caller comes from the
canonical candidate list of that resolution: the backend index filter only
emits canonical hotspots/restaurants (out-of-range indices contribute
nothing), the fallback scorer only reorders canonical hotspots, and the
client reconciler only emits entities found in the canonical restaurant list
(unknown identifiers are dropped). -/
theorem C5_referential_integrity (mood cravings : String)
    (hs : List Hotspot) (idxs : List Int)
    (restaurants : List Restaurant) (rankings : List (Int × String))
    (sugg : List Suggestion) (canon : List Restaurant) :
    (∀ e ∈ serverFilteredHotspotList hs idxs, e ∈ hs)
    ∧ (∀ e ∈ fallbackHotspots mood cravings hs, e ∈ hs)
    ∧ (∀ e ∈ serverRankedList restaurants rankings, e.base ∈ restaurants)
    ∧ (∀ e ∈ reconcileRestaurants sugg canon, e ∈ canon) := by
  refine ⟨?_, ?_, ?_, ?_⟩
  · intro e he
    unfold serverFilteredHotspotList at he
    rw [List.mem_map] at he
    obtain ⟨i, hi, rfl⟩ := he
    rw [List.mem_filter] at hi
    have hb : 0 ≤ i ∧ i < (hs.length : Int) := by
      have := hi.2
      simp only [Bool.and_eq_true, decide_eq_true_eq] at this
      exact this
    have hlt : i.toNat < hs.length := by omega
    rw [List.getD_eq_getElem hs dummyHotspot hlt]
    exact List.getElem_mem hlt
  · intro e he
    unfold fallbackHotspots scoredHotspots at he
    rw [List.mem_map] at he
    obtain ⟨sh, hsh, rfl⟩ := he
    rw [List.mem_insertionSort, List.mem_map] at hsh
    obtain ⟨h, hh, rfl⟩ := hsh
    exact hh
  · intro e he
    unfold serverRankedList at he
    rw [List.mem_map] at he
    obtain ⟨p, hp, rfl⟩ := he
    rw [List.mem_filter] at hp
    have hb : 0 ≤ p.1 ∧ p.1 < (restaurants.length : Int) := by
      have := hp.2
      simp only [Bool.and_eq_true, decide_eq_true_eq] at this
      exact this
    have hlt : p.1.toNat < restaurants.length := by omega
    show restaurants.getD p.1.toNat dummyRestaurant ∈ restaurants
    rw [List.getD_eq_getElem restaurants dummyRestaurant hlt]
    exact List.getElem_mem hlt
  · intro e he
    unfold reconcileRestaurants at he
    rw [List.mem_filterMap] at he
    obtain ⟨s, _, hfind⟩ := he
    unfold restaurantMapGet at hfind
    exact List.mem_reverse.mp (List.mem_of_find?_eq_some hfind)

/-- A restaurant used in the duplicate-reconciliation counterexample. -/
def prontoPia : Restaurant := ⟨"p", "Pronto", ["pizza"], "Pizza"⟩

/-- C9 (counterexample): two ranked-input entries with the same identifier
produce the entity twice in the reconciled output — nothing collapses
duplicates. -/
theorem C9_duplicates_not_collapsed :
    reconcileRestaurants [⟨"p", "a"⟩, ⟨"p", "b"⟩] [prontoPia] = [prontoPia, prontoPia]
    ∧ ¬ (reconcileRestaurants [⟨"p", "a"⟩, ⟨"p", "b"⟩] [prontoPia]).Nodup := by
  constructor
  · rfl
  · decide

/-- C9 (amended): the reconciled output contains one entry per occurrence of a
resolvable identifier in the ranked input — duplicate identifiers are kept,
one output entity per occurrence, and unresolvable identifiers contribute
nothing. -/
theorem C9_duplicate_multiplicity (sugg : List Suggestion) (canon : List Restaurant)
    (pid : String) (e : Restaurant)
    (he : restaurantMapGet canon pid = some e) :
    (reconcileRestaurants sugg canon).count e = sugg.countP (fun s => s.placeId == pid) := by
  have epid : e.placeId = pid := by
    unfold restaurantMapGet at he
    have hp := List.find?_some he
    simpa using hp
  induction sugg with
  | nil => rfl
  | cons s ss ih =>
    unfold reconcileRestaurants at *
    rw [List.filterMap_cons, List.countP_cons]
    by_cases hsp : s.placeId = pid
    · rw [hsp, he]
      simp [List.count_cons, ih, hsp]
    · cases hfind : restaurantMapGet canon s.placeId with
      | none => simp [hfind, ih, hsp]
      | some e2 =>
        have he2 : e2.placeId = s.placeId := by
          unfold restaurantMapGet at hfind
          have hp := List.find?_some hfind
          simpa using hp
        have hne : e2 ≠ e := by
          intro hcontra
          exact hsp (by rw [← he2, hcontra, epid])
        simp [hfind, List.count_cons, hne, ih, hsp]

theorem C9_duplicate_multiplicity_witness :
    (reconcileRestaurants [⟨"p", "a"⟩, ⟨"q", "b"⟩] [prontoPia]).count prontoPia =
      ([⟨"p", "a"⟩, ⟨"q", "b"⟩] : List Suggestion).countP (fun s => s.placeId == "p") :=
  C9_duplicate_multiplicity [⟨"p", "a"⟩, ⟨"q", "b"⟩] [prontoPia] "p" prontoPia rfl

/-! ### Request timeouts -/

/-- C10 (counterexample): the request the hotspot resolver actually issues
carries no abort signal and no timeout, refuting "every remote ranking request
is subject to a 10-second timeout enforced via cancellation". -/
theorem C10_ranking_request_has_no_timeout :
    (hotspotsFetchSpec "http://localhost:3001/api").timeoutMs = none
    ∧ (hotspotsFetchSpec "http://localhost:3001/api").hasAbortSignal = false
    ∧ (restaurantsFetchSpec "http://localhost:3001/api").timeoutMs = none
    ∧ (restaurantsFetchSpec "http://localhost:3001/api").hasAbortSignal = false :=
  ⟨rfl, rfl, rfl, rfl⟩

/-- C10 (amended): the shared service-layer helper `apiRequest` does attach an
abort signal with a 10000 ms timer and maps an abort to `APIError(TIMEOUT,
408)`, but the two ranking resolvers issue plain `fetch` requests with no
abort signal and no timeout, so remote ranking calls are not time-bounded by
the client (any fetch rejection still falls back locally, per C1). -/
theorem C10_timeout_only_in_service_layer (apiUrl endpoint method : String) :
    (apiRequestFetchSpec apiUrl endpoint method).timeoutMs = some 10000
    ∧ (apiRequestFetchSpec apiUrl endpoint method).hasAbortSignal = true
    ∧ apiRequestFailure .abortError = ⟨errorMessageTimeout, 408⟩
    ∧ (hotspotsFetchSpec apiUrl).timeoutMs = none
    ∧ (hotspotsFetchSpec apiUrl).hasAbortSignal = false
    ∧ (restaurantsFetchSpec apiUrl).timeoutMs = none
    ∧ (restaurantsFetchSpec apiUrl).hasAbortSignal = false :=
  ⟨rfl, rfl, rfl, rfl, rfl, rfl, rfl⟩
